import Mathlib

/-!
Shallow embedding of `src/index.js` of safetyfixs-backend.com: an Express
application over a single SQLite table `submissions`, with three API routes
(create, list, update-status), a basic-auth gate on the read/update routes,
and a dashboard page route.

JavaScript request-body values are modelled by `JVal`; values stored in the
table (as bound by the sqlite3 driver into a parameterized statement) by
`SVal`.  The table is a list of rows plus the AUTOINCREMENT counter.
Timestamps are modelled as natural numbers; each handler takes the current
time `now` as an argument.
-/

namespace SafetyFixs

/-- A JSON value as it appears in a parsed request body
(the subset the sqlite3 driver can bind as a parameter). -/
inductive JVal
  | null
  | bool (b : Bool)
  | num (n : Int)
  | str (s : String)
  deriving DecidableEq, Repr

/-- JavaScript truthiness, as used by the conditional expressions
`isDone ? new Date().toISOString() : null` (index.js line 140) and its
`isPrinted` twin (line 146). -/
def JVal.truthy : JVal → Bool
  | .null => false
  | .bool b => b
  | .num n => n != 0
  | .str s => s != ""

/-- A value stored in a column of the `submissions` table. -/
inductive SVal
  | null
  | int (n : Int)
  | text (s : String)
  deriving DecidableEq, Repr

/-- How the sqlite3 driver binds a JavaScript value into a parameterized
statement: booleans become the integers 1/0, numbers and strings are passed
through, `null` binds SQL NULL. -/
def bindVal : JVal → SVal
  | .null => .null
  | .bool b => .int (if b then 1 else 0)
  | .num n => .int n
  | .str s => .text s

/-- Binding of a possibly-absent body field: a field destructured from
`req.body` that is absent is `undefined` and binds as SQL NULL. -/
def bindOpt : Option JVal → SVal
  | none => .null
  | some v => bindVal v

/-- One row of the `submissions` table (schema at index.js lines 30-49).
`submittedAt` is the server-assigned creation timestamp
(`DEFAULT CURRENT_TIMESTAMP`); `doneAt`/`printedAt` are nullable
timestamps. -/
structure Row where
  id : Nat
  shopName : SVal
  phoneNumber : SVal
  dropOffType : SVal
  vehicleYear : SVal
  vehicleMake : SVal
  vehicleModel : SVal
  vehicleIssueDescription : SVal
  moduleCount : SVal
  singleStageCount : SVal
  dualStageCount : SVal
  threeStageCount : SVal
  buckleCount : SVal
  isDone : SVal
  isPrinted : SVal
  submittedAt : Nat
  doneAt : Option Nat
  printedAt : Option Nat
  deriving DecidableEq, Repr

/-- The database state: the stored rows plus the AUTOINCREMENT counter
(`id INTEGER PRIMARY KEY AUTOINCREMENT`): the next insert receives id
`nextId` and the counter increments, so ids are never reused. -/
structure DB where
  rows : List Row
  nextId : Nat
  deriving DecidableEq, Repr

/-- A freshly created, empty table.  SQLite AUTOINCREMENT assigns 1 to the
first inserted row. -/
def DB.empty : DB := ⟨[], 1⟩

/-- Parsed body of `POST /api/submit`.  The handler destructures exactly the
twelve names at index.js lines 71-76; note that it reads `customerName` and
never reads a body field named `shopName`, so we carry a `shopName` field
here only to express that the handler ignores it. -/
structure SubmitBody where
  customerName : Option JVal := none
  shopName : Option JVal := none
  phoneNumber : Option JVal := none
  dropOffType : Option JVal := none
  vehicleYear : Option JVal := none
  vehicleMake : Option JVal := none
  vehicleModel : Option JVal := none
  vehicleIssueDescription : Option JVal := none
  moduleCount : Option JVal := none
  singleStageCount : Option JVal := none
  dualStageCount : Option JVal := none
  threeStageCount : Option JVal := none
  buckleCount : Option JVal := none
  deriving DecidableEq, Repr

/-- Parsed body of `POST /api/submissions/:id/status`: the handler
destructures `isDone` and `isPrinted` (index.js line 130); `none` models the
field being absent (`undefined`). -/
structure StatusBody where
  isDone : Option JVal := none
  isPrinted : Option JVal := none
  deriving DecidableEq, Repr

/-- HTTP responses the routes can produce, with the exact bodies from
index.js. -/
inductive Response
  | created201 (message : String) (id : Nat)
  | okRows (rows : List Row)
  | okMsg (message : String)
  | okPage
  | badRequest400 (error : String)
  | notFound404 (error : String)
  | serverError500 (error : String)
  | unauthorized401 (challenge : Bool) (body : String)
  deriving DecidableEq, Repr

/-- The static credential table `users = \x7b 'admin': 'password' \x7d`
(index.js line 16). -/
def users : List (String × String) := [("admin", "password")]

/-- Supplied basic-auth credentials: `none` when the request carries no
Authorization header, otherwise the username/password pair. -/
def Cred := Option (String × String)

/-- express-basic-auth acceptance: the supplied username must be a key of
`users` and the supplied password must match its entry. -/
def authOk : Cred → Bool
  | none => false
  | some (u, p) => decide (users.lookup u = some p)

/-- The `unauthorizedResponse` callback (index.js lines 17-19): the 401 body
echoes the supplied username and password when credentials were provided. -/
def unauthorizedResponse : Cred → String
  | some (u, p) => "Credentials " ++ u ++ ":" ++ p ++ " rejected"
  | none => "No credentials provided"

/-- The 401 challenge response issued by the authenticator
(`challenge: true` re-issues a WWW-Authenticate challenge). -/
def challengeResponse (c : Cred) : Response :=
  .unauthorized401 true (unauthorizedResponse c)

/-- The row inserted by `POST /api/submit` (index.js lines 78-88): the
`shopName` column receives the body's `customerName` field; `isDone` and
`isPrinted` take their schema defaults 0; `submittedAt` defaults to the
current time; `doneAt`/`printedAt` start NULL. -/
def newRow (nextId : Nat) (now : Nat) (body : SubmitBody) : Row where
  id := nextId
  shopName := bindOpt body.customerName
  phoneNumber := bindOpt body.phoneNumber
  dropOffType := bindOpt body.dropOffType
  vehicleYear := bindOpt body.vehicleYear
  vehicleMake := bindOpt body.vehicleMake
  vehicleModel := bindOpt body.vehicleModel
  vehicleIssueDescription := bindOpt body.vehicleIssueDescription
  moduleCount := bindOpt body.moduleCount
  singleStageCount := bindOpt body.singleStageCount
  dualStageCount := bindOpt body.dualStageCount
  threeStageCount := bindOpt body.threeStageCount
  buckleCount := bindOpt body.buckleCount
  isDone := .int 0
  isPrinted := .int 0
  submittedAt := now
  doneAt := none
  printedAt := none

/-- The `POST /api/submit` handler (index.js lines 70-98).  The route is
registered without the authenticator, so the handler takes the supplied
credentials only to show it ignores them.  It appends one row and responds
201 with the new id (`this.lastID`). -/
def submitRoute (db : DB) (creds : Cred) (now : Nat) (body : SubmitBody) :
    DB × Response :=
  let _ := creds
  let r := newRow db.nextId now body
  (⟨db.rows ++ [r], db.nextId + 1⟩,
   .created201 "Form submitted successfully!" r.id)

/-- Insert a row into a list held in descending `submittedAt` order. -/
def insertDesc (r : Row) : List Row → List Row
  | [] => [r]
  | s :: rest =>
    if s.submittedAt ≤ r.submittedAt then r :: s :: rest
    else s :: insertDesc r rest

/-- `ORDER BY submittedAt DESC` (index.js line 113), modelled as insertion
sort by `submittedAt`, most recent first. -/
def sortBySubmittedAtDesc (rs : List Row) : List Row :=
  rs.foldr insertDesc []

/-- The `GET /api/submissions` handler (index.js lines 105-122), behind the
authenticator.  The base query selects every row; unless the `showAll` query
value is exactly the string "true" the clause `WHERE isDone = 0` is
appended; the result is ordered by `submittedAt` descending.  `showAll` is
`none` when the query parameter is absent. -/
def listRoute (db : DB) (creds : Cred) (showAll : Option String) : Response :=
  if authOk creds then
    let base :=
      if showAll = some "true" then db.rows
      else db.rows.filter (fun r => r.isDone = .int 0)
    .okRows (sortBySubmittedAtDesc base)
  else challengeResponse creds

/-- The effect of the single UPDATE statement built by the status handler
(index.js lines 136-147) on one row: for each present field it sets the
boolean column to the bound body value and the paired timestamp column to
the current time when the value is JS-truthy and to NULL otherwise. -/
def applyStatus (body : StatusBody) (now : Nat) (r : Row) : Row :=
  let r1 :=
    match body.isDone with
    | none => r
    | some v =>
      { r with isDone := bindVal v
               doneAt := if v.truthy then some now else none }
  match body.isPrinted with
  | none => r1
  | some v =>
    { r1 with isPrinted := bindVal v
              printedAt := if v.truthy then some now else none }

/-- The `POST /api/submissions/:id/status` handler (index.js lines
128-167), behind the authenticator.  If neither body field is present it
responds 400 before issuing any statement; otherwise it runs one UPDATE on
the rows matching the path id, and responds 404 when `this.changes` is 0,
200 otherwise. -/
def statusRoute (db : DB) (creds : Cred) (id : Nat) (body : StatusBody)
    (now : Nat) : DB × Response :=
  if authOk creds then
    if body.isDone = none ∧ body.isPrinted = none then
      (db, .badRequest400 "No status fields provided to update.")
    else
      let newRows := db.rows.map
        (fun r => if r.id = id then applyStatus body now r else r)
      let changes := db.rows.countP (fun r => r.id == id)
      if changes = 0 then
        (⟨newRows, db.nextId⟩, .notFound404 "Submission not found.")
      else
        (⟨newRows, db.nextId⟩, .okMsg "Status updated successfully.")
  else (db, challengeResponse creds)

/-- The `GET /` dashboard route (index.js lines 176-294), behind the
authenticator; its body serves the dashboard HTML page (a display concern,
represented abstractly). -/
def rootRoute (creds : Cred) : Response :=
  if authOk creds then .okPage else challengeResponse creds

/-- The boolean-and-timestamp mirroring invariant of §3 of the spec:
`doneAt` is non-null exactly when `isDone` holds the boolean true (bound as
the integer 1), and likewise for `printedAt`/`isPrinted`. -/
def mirrors (r : Row) : Prop :=
  (r.doneAt ≠ none ↔ r.isDone = .int 1) ∧
  (r.printedAt ≠ none ↔ r.isPrinted = .int 1)

instance (r : Row) : Decidable (mirrors r) := by
  unfold mirrors; infer_instance

/-- A status-body field that is either absent or a JSON boolean. -/
def boolField : Option JVal → Bool
  | none => true
  | some (.bool _) => true
  | some _ => false

/-- A status body whose present fields are all JSON booleans. -/
def boolBody (b : StatusBody) : Bool :=
  boolField b.isDone && boolField b.isPrinted

/-- One authenticated status update of a whole update sequence:
credentials, path id, body, and request time. -/
structure UpdateReq where
  creds : Cred
  id : Nat
  body : StatusBody
  now : Nat

/-- Run a sequence of status updates against the database, keeping only the
resulting states. -/
def runUpdates (db : DB) : List UpdateReq → DB
  | [] => db
  | u :: rest => runUpdates (statusRoute db u.creds u.id u.body u.now).1 rest

/-- The id carried by a 201 response (`this.lastID` returned to the
caller); 0 for any other response. -/
def createdId : Response → Nat
  | .created201 _ i => i
  | _ => 0

/-- Run a sequence of create requests (each a request time and a body),
returning the final database and the ids returned to the callers in
order. -/
def runCreates (db : DB) : List (Nat × SubmitBody) → DB × List Nat
  | [] => (db, [])
  | p :: rest =>
    let step := submitRoute db none p.1 p.2
    let next := runCreates step.1 rest
    (next.1, createdId step.2 :: next.2)

/-- A concrete row used in witnesses: all optional columns NULL, booleans at
their schema defaults. -/
def exRow (i : Nat) (t : Nat) : Row where
  id := i
  shopName := .null
  phoneNumber := .null
  dropOffType := .null
  vehicleYear := .null
  vehicleMake := .null
  vehicleModel := .null
  vehicleIssueDescription := .null
  moduleCount := .null
  singleStageCount := .null
  dualStageCount := .null
  threeStageCount := .null
  buckleCount := .null
  isDone := .int 0
  isPrinted := .int 0
  submittedAt := t
  doneAt := none
  printedAt := none

/-- A concrete two-row database used in witnesses. -/
def exDB : DB := ⟨[exRow 1 10, exRow 2 20], 3⟩

/-- A concrete completed row used in witnesses. -/
def exRowDone : Row := { exRow 2 20 with isDone := .int 1, doneAt := some 20 }

/-- A concrete database with one open and one completed row. -/
def exDB2 : DB := ⟨[exRow 1 10, exRowDone], 3⟩

/-! ### Helper lemmas -/

theorem applyStatus_id (body : StatusBody) (now : Nat) (r : Row) :
    (applyStatus body now r).id = r.id := by
  unfold applyStatus
  cases body.isDone <;> cases body.isPrinted <;> rfl

theorem insertDesc_perm (r : Row) (l : List Row) :
    List.Perm (insertDesc r l) (r :: l) := by
  induction l with
  | nil => exact List.Perm.refl _
  | cons s rest ih =>
    unfold insertDesc
    split
    · exact List.Perm.refl _
    · exact (ih.cons s).trans (List.Perm.swap r s rest)

theorem sortBySubmittedAtDesc_perm (l : List Row) :
    List.Perm (sortBySubmittedAtDesc l) l := by
  induction l with
  | nil => exact List.Perm.refl _
  | cons x rest ih =>
    have h1 : sortBySubmittedAtDesc (x :: rest)
        = insertDesc x (sortBySubmittedAtDesc rest) := rfl
    rw [h1]
    exact (insertDesc_perm x _).trans (ih.cons x)

theorem mem_sortBySubmittedAtDesc {x : Row} {l : List Row} :
    x ∈ sortBySubmittedAtDesc l ↔ x ∈ l :=
  (sortBySubmittedAtDesc_perm l).mem_iff

theorem insertDesc_pairwise (r : Row) (l : List Row)
    (h : l.Pairwise (fun a b => b.submittedAt ≤ a.submittedAt)) :
    (insertDesc r l).Pairwise (fun a b => b.submittedAt ≤ a.submittedAt) := by
  induction l with
  | nil => simp [insertDesc]
  | cons s rest ih =>
    rw [List.pairwise_cons] at h
    unfold insertDesc
    split
    · rename_i hle
      refine List.pairwise_cons.mpr ⟨?_, List.pairwise_cons.mpr ⟨h.1, h.2⟩⟩
      intro x hx
      rcases List.mem_cons.mp hx with hx | hx
      · exact hx ▸ hle
      · exact le_trans (h.1 x hx) hle
    · rename_i hgt
      refine List.pairwise_cons.mpr ⟨?_, ih h.2⟩
      intro x hx
      rcases List.mem_cons.mp ((insertDesc_perm r rest).mem_iff.mp hx)
        with hx1 | hx1
      · subst hx1; omega
      · exact h.1 x hx1

theorem sortBySubmittedAtDesc_pairwise (l : List Row) :
    (sortBySubmittedAtDesc l).Pairwise
      (fun a b => b.submittedAt ≤ a.submittedAt) := by
  induction l with
  | nil => simp [sortBySubmittedAtDesc]
  | cons x rest ih => exact insertDesc_pairwise x _ ih

theorem map_update_no_match {rows : List Row} {i : Nat}
    (f : Row → Row) (h : ∀ r ∈ rows, r.id ≠ i) :
    rows.map (fun r => if r.id = i then f r else r) = rows := by
  have h1 : rows.map (fun r => if r.id = i then f r else r)
      = rows.map (fun r => r) := by
    apply List.map_congr_left
    intro r hr
    simp [h r hr]
  rw [h1, List.map_id']

theorem applyStatus_done_fields (body : StatusBody) (now : Nat) (r : Row) :
    (applyStatus body now r).isDone
      = (match body.isDone with | none => r.isDone | some v => bindVal v) ∧
    (applyStatus body now r).doneAt
      = (match body.isDone with
         | none => r.doneAt
         | some v => if v.truthy then some now else none) := by
  unfold applyStatus
  cases body.isDone <;> cases body.isPrinted <;> exact ⟨rfl, rfl⟩

theorem applyStatus_printed_fields (body : StatusBody) (now : Nat) (r : Row) :
    (applyStatus body now r).isPrinted
      = (match body.isPrinted with | none => r.isPrinted | some v => bindVal v) ∧
    (applyStatus body now r).printedAt
      = (match body.isPrinted with
         | none => r.printedAt
         | some v => if v.truthy then some now else none) := by
  unfold applyStatus
  cases body.isDone <;> cases body.isPrinted <;> exact ⟨rfl, rfl⟩

theorem applyStatus_mirrors (body : StatusBody) (now : Nat) (r : Row)
    (hb : boolBody body = true) (hr : mirrors r) :
    mirrors (applyStatus body now r) := by
  have hd := applyStatus_done_fields body now r
  have hp := applyStatus_printed_fields body now r
  simp only [boolBody, Bool.and_eq_true] at hb
  constructor
  · rw [hd.1, hd.2]
    rcases hdb : body.isDone with _ | v
    · exact hr.1
    · rw [hdb] at hb
      cases v with
      | bool x => cases x <;> simp [JVal.truthy, bindVal]
      | null => simp [boolField] at hb
      | num n => simp [boolField] at hb
      | str s => simp [boolField] at hb
  · rw [hp.1, hp.2]
    rcases hpb : body.isPrinted with _ | v
    · exact hr.2
    · rw [hpb] at hb
      cases v with
      | bool x => cases x <;> simp [JVal.truthy, bindVal]
      | null => simp [boolField] at hb
      | num n => simp [boolField] at hb
      | str s => simp [boolField] at hb

/-- The rows after a status request are either untouched (failed auth or
the 400 path) or the image of the single UPDATE statement. -/
theorem statusRoute_rows (d : DB) (creds : Cred) (i : Nat)
    (body : StatusBody) (now : Nat) :
    (statusRoute d creds i body now).1.rows = d.rows ∨
    (statusRoute d creds i body now).1.rows
      = d.rows.map (fun r => if r.id = i then applyStatus body now r else r) := by
  unfold statusRoute
  split
  · split
    · exact Or.inl rfl
    · dsimp only
      split
      · exact Or.inr rfl
      · exact Or.inr rfl
  · exact Or.inl rfl

/-- An authenticated, non-empty status request on an id carried by some
stored row runs the UPDATE on exactly the matching rows and responds
200. -/
theorem statusRoute_found (d : DB) (creds : Cred) (i : Nat)
    (body : StatusBody) (now : Nat)
    (ha : authOk creds = true)
    (hb : ¬(body.isDone = none ∧ body.isPrinted = none))
    (hex : ∃ r ∈ d.rows, r.id = i) :
    statusRoute d creds i body now
      = (⟨d.rows.map (fun r => if r.id = i then applyStatus body now r else r),
          d.nextId⟩,
         .okMsg "Status updated successfully.") := by
  obtain ⟨r0, hr0, hid⟩ := hex
  have hc : d.rows.countP (fun r => r.id == i) ≠ 0 := by
    intro h0
    exact absurd (by simpa using hid)
      (by simpa using List.countP_eq_zero.mp h0 r0 hr0)
  simp [statusRoute, ha, hb, hc]

/-! ### Claim theorems -/

/-- C2: for every create request the body's `customerName` value is what is
stored in the row's `shopName` column, the handler appends exactly that one
row, and a body field literally named `shopName` has no effect on the
result of the request. -/
theorem submit_customerName_to_shopName
    (db : DB) (creds : Cred) (now : Nat) (body : SubmitBody) :
    (newRow db.nextId now body).shopName = bindOpt body.customerName ∧
    (submitRoute db creds now body).1.rows
      = db.rows ++ [newRow db.nextId now body] ∧
    ∀ v : Option JVal,
      submitRoute db creds now { body with shopName := v }
        = submitRoute db creds now body :=
  ⟨rfl, rfl, fun _ => rfl⟩

/-- C3: an authenticated update-status request in which neither `isDone`
nor `isPrinted` is present fails with the 400 "no fields" validation error,
returned before the UPDATE statement is built, and the stored table is
unchanged. -/
theorem updateStatus_no_fields_400
    (db : DB) (creds : Cred) (i : Nat) (body : StatusBody) (now : Nat)
    (ha : authOk creds = true)
    (hd : body.isDone = none) (hp : body.isPrinted = none) :
    statusRoute db creds i body now
      = (db, .badRequest400 "No status fields provided to update.") := by
  simp [statusRoute, ha, hd, hp]

/-- Witness for C3 at a concrete database and request. -/
theorem updateStatus_no_fields_400_witness :
    statusRoute exDB (some ("admin", "password")) 1 {} 0
      = (exDB, .badRequest400 "No status fields provided to update.") :=
  updateStatus_no_fields_400 exDB _ 1 {} 0 (by decide) rfl rfl

/-- C4: an authenticated update-status request with at least one status
field present, whose path id matches no stored row, yields the 404
not-found response and leaves every stored row unchanged (the UPDATE
matches zero rows). -/
theorem updateStatus_unknown_id_404
    (db : DB) (creds : Cred) (i : Nat) (body : StatusBody) (now : Nat)
    (ha : authOk creds = true)
    (hb : ¬(body.isDone = none ∧ body.isPrinted = none))
    (hid : ∀ r ∈ db.rows, r.id ≠ i) :
    statusRoute db creds i body now
      = (db, .notFound404 "Submission not found.") := by
  have hc : db.rows.countP (fun r => r.id == i) = 0 :=
    List.countP_eq_zero.mpr (by intro r hr; simpa using hid r hr)
  have hm := map_update_no_match (applyStatus body now) hid
  simp [statusRoute, ha, hb, hc, hm]

/-- Witness for C4 at a concrete database and request. -/
theorem updateStatus_unknown_id_404_witness :
    statusRoute exDB (some ("admin", "password")) 99
        ⟨some (.bool true), none⟩ 0
      = (exDB, .notFound404 "Submission not found.") :=
  updateStatus_unknown_id_404 exDB _ 99 ⟨some (.bool true), none⟩ 0
    (by decide) (by simp) (by decide)

/-- C7: the list, update-status and dashboard routes are wrapped by the
authenticator: on missing or invalid credentials each responds with the
re-issuable 401 challenge and the table is untouched, while accepted
credentials reach the route body; the create route ignores credentials
entirely (it is registered without the authenticator). -/
theorem auth_gate_routes
    (db : DB) (creds : Cred) (q : Option String) (i : Nat)
    (sb : StatusBody) (body : SubmitBody) (now : Nat) :
    (authOk creds = false →
      listRoute db creds q
        = .unauthorized401 true (unauthorizedResponse creds) ∧
      statusRoute db creds i sb now
        = (db, .unauthorized401 true (unauthorizedResponse creds)) ∧
      rootRoute creds
        = .unauthorized401 true (unauthorizedResponse creds)) ∧
    (authOk creds = true →
      rootRoute creds = .okPage ∧
      (∀ f b, listRoute db creds q ≠ .unauthorized401 f b) ∧
      (∀ f b, (statusRoute db creds i sb now).2
        ≠ .unauthorized401 f b)) ∧
    (∀ creds2 : Cred,
      submitRoute db creds now body = submitRoute db creds2 now body) := by
  refine ⟨fun h => ?_, fun h => ?_, fun _ => rfl⟩
  · simp [listRoute, statusRoute, rootRoute, challengeResponse, h]
  · refine ⟨by simp [rootRoute, h], by simp [listRoute, h], ?_⟩
    intro f b
    simp only [statusRoute, h, if_true]
    split
    · simp
    · split <;> simp

/-- Witness for C7: a wrong password on the list route receives the
challenge response. -/
theorem auth_gate_routes_witness :
    listRoute exDB (some ("admin", "wrong")) none
      = .unauthorized401 true (unauthorizedResponse (some ("admin", "wrong"))) :=
  ((auth_gate_routes exDB (some ("admin", "wrong")) none 1 {} {} 0).1
    (by decide)).1

/-- C1: an authenticated update-status request with a boolean field sets
the boolean column and its paired timestamp in the same single UPDATE
(true stores 1 and the current time, false stores 0 and NULL, refreshing
the timestamp even when the same boolean is re-sent); newly created rows
satisfy the mirroring invariant, and any sequence of updates whose present
fields are booleans preserves it, so `doneAt` is non-null iff the last
write that touched `isDone` set it true (likewise `printedAt`). -/
theorem statusUpdate_mirroring
    (db : DB) (creds : Cred) (i : Nat) (body : StatusBody) (now : Nat) :
    (authOk creds = true → ¬(body.isDone = none ∧ body.isPrinted = none) →
      (∃ r ∈ db.rows, r.id = i) →
      statusRoute db creds i body now
        = (⟨db.rows.map
              (fun r => if r.id = i then applyStatus body now r else r),
            db.nextId⟩,
           .okMsg "Status updated successfully.")) ∧
    (∀ (b : Bool) (r : Row), body.isDone = some (.bool b) →
      (applyStatus body now r).isDone = .int (if b then 1 else 0) ∧
      (applyStatus body now r).doneAt = (if b then some now else none)) ∧
    (∀ (b : Bool) (r : Row), body.isPrinted = some (.bool b) →
      (applyStatus body now r).isPrinted = .int (if b then 1 else 0) ∧
      (applyStatus body now r).printedAt = (if b then some now else none)) ∧
    (∀ (nid now2 : Nat) (sb : SubmitBody), mirrors (newRow nid now2 sb)) ∧
    (∀ ops : List UpdateReq, (∀ u ∈ ops, boolBody u.body = true) →
      ∀ d : DB, (∀ r ∈ d.rows, mirrors r) →
        ∀ r ∈ (runUpdates d ops).rows, mirrors r) := by
  refine ⟨statusRoute_found db creds i body now, ?_, ?_, ?_, ?_⟩
  · intro b r hbd
    have h := applyStatus_done_fields body now r
    rw [hbd] at h
    refine ⟨h.1.trans (by cases b <;> rfl), h.2.trans (by cases b <;> rfl)⟩
  · intro b r hbp
    have h := applyStatus_printed_fields body now r
    rw [hbp] at h
    refine ⟨h.1.trans (by cases b <;> rfl), h.2.trans (by cases b <;> rfl)⟩
  · intro nid now2 sb
    simp [mirrors, newRow]
  · intro ops
    induction ops with
    | nil => exact fun _ d hd r hr => hd r hr
    | cons u rest ih =>
      intro hall d hd
      have hu : boolBody u.body = true := hall u (List.mem_cons_self u rest)
      have hrest : ∀ v ∈ rest, boolBody v.body = true :=
        fun v hv => hall v (List.mem_cons_of_mem u hv)
      have hnext :
          ∀ r ∈ (statusRoute d u.creds u.id u.body u.now).1.rows,
            mirrors r := by
        rcases statusRoute_rows d u.creds u.id u.body u.now with h | h
        · rw [h]; exact hd
        · rw [h]
          intro r hr
          obtain ⟨r0, hr0, rfl⟩ := List.mem_map.mp hr
          by_cases hi : r0.id = u.id
          · rw [if_pos hi]
            exact applyStatus_mirrors u.body u.now r0 hu (hd r0 hr0)
          · rw [if_neg hi]
            exact hd r0 hr0
      exact ih hrest _ hnext

/-- Witness for C1: marking the stored row 1 done at time 5 runs the
UPDATE and stores `doneAt = 5`. -/
theorem statusUpdate_mirroring_witness :
    statusRoute exDB (some ("admin", "password")) 1
        ⟨some (.bool true), none⟩ 5
      = (⟨exDB.rows.map (fun r => if r.id = 1
            then applyStatus ⟨some (.bool true), none⟩ 5 r else r),
          exDB.nextId⟩,
         .okMsg "Status updated successfully.") ∧
    (applyStatus ⟨some (.bool true), none⟩ 5 (exRow 1 10)).doneAt = some 5 :=
  ⟨(statusUpdate_mirroring exDB (some ("admin", "password")) 1
      ⟨some (.bool true), none⟩ 5).1 (by decide) (by simp)
      ⟨exRow 1 10, by simp [exDB], rfl⟩,
   ((statusUpdate_mirroring exDB (some ("admin", "password")) 1
      ⟨some (.bool true), none⟩ 5).2.1 true (exRow 1 10) rfl).2⟩

/-- C10: a present status field is stored as bound by the driver even when
it is not a boolean, and the paired timestamp follows the value's JS
truthiness; in particular sending the JSON string "false" (truthy) for
`isDone` stores the text "false" in the boolean column together with a
non-null `doneAt`, violating the boolean-timestamp mirroring invariant. -/
theorem statusUpdate_nonbool_truthiness
    (db : DB) (creds : Cred) (i : Nat) (now : Nat) :
    (∀ (body : StatusBody) (v : JVal) (r : Row), body.isDone = some v →
      (applyStatus body now r).isDone = bindVal v ∧
      (applyStatus body now r).doneAt
        = (if v.truthy then some now else none)) ∧
    (∀ (body : StatusBody) (v : JVal) (r : Row), body.isPrinted = some v →
      (applyStatus body now r).isPrinted = bindVal v ∧
      (applyStatus body now r).printedAt
        = (if v.truthy then some now else none)) ∧
    (authOk creds = true → (∃ r ∈ db.rows, r.id = i) →
      ∃ r2 ∈ (statusRoute db creds i
          ⟨some (.str "false"), none⟩ now).1.rows,
        r2.isDone = .text "false" ∧ r2.doneAt = some now ∧ ¬ mirrors r2) := by
  refine ⟨?_, ?_, ?_⟩
  · intro body v r hbd
    have h := applyStatus_done_fields body now r
    rw [hbd] at h
    exact ⟨h.1, h.2⟩
  · intro body v r hbp
    have h := applyStatus_printed_fields body now r
    rw [hbp] at h
    exact ⟨h.1, h.2⟩
  · intro ha hex
    obtain ⟨r0, hr0, hid⟩ := hex
    rw [statusRoute_found db creds i ⟨some (.str "false"), none⟩ now ha
      (by simp) ⟨r0, hr0, hid⟩]
    refine ⟨applyStatus ⟨some (.str "false"), none⟩ now r0, ?_, ?_, ?_, ?_⟩
    · have := List.mem_map_of_mem
        (f := fun r => if r.id = i
          then applyStatus ⟨some (.str "false"), none⟩ now r else r) hr0
      simpa [hid] using this
    · have h := applyStatus_done_fields ⟨some (.str "false"), none⟩ now r0
      exact h.1
    · have h := applyStatus_done_fields ⟨some (.str "false"), none⟩ now r0
      simpa [JVal.truthy] using h.2
    · intro hm
      have h := applyStatus_done_fields ⟨some (.str "false"), none⟩ now r0
      have h1 := hm.1.mp (by rw [h.2]; simp [JVal.truthy])
      rw [h.1] at h1
      exact absurd h1 (by simp [bindVal])

/-- Witness for C10: sending `isDone = "false"` for stored row 1 yields a
row with text "false" in `isDone` and a non-null `doneAt`. -/
theorem statusUpdate_nonbool_truthiness_witness :
    ∃ r2 ∈ (statusRoute exDB (some ("admin", "password")) 1
        ⟨some (.str "false"), none⟩ 7).1.rows,
      r2.isDone = .text "false" ∧ r2.doneAt = some 7 ∧ ¬ mirrors r2 :=
  (statusUpdate_nonbool_truthiness exDB (some ("admin", "password")) 1 7).2.2
    (by decide) ⟨exRow 1 10, by simp [exDB], rfl⟩

/-- C5: an authenticated list request with `showAll = "true"` returns every
stored row; with any other (or absent) `showAll` it returns exactly the
rows whose `isDone` is false (stored 0) and never a completed row; and
since neither mutating operation removes a row, every stored id survives
both the create and the update-status operation (so the full listing is a
superset of every earlier listing, at the level of row identity). -/
theorem list_show_all_filtering
    (db : DB) (creds : Cred) (ha : authOk creds = true) :
    (∀ rs, listRoute db creds (some "true") = .okRows rs →
      ∀ r : Row, r ∈ rs ↔ r ∈ db.rows) ∧
    (∀ q, q ≠ some "true" → ∀ rs, listRoute db creds q = .okRows rs →
      ∀ r : Row,
        (r ∈ rs ↔ r ∈ db.rows ∧ r.isDone = .int 0) ∧
        (r.isDone = .int 1 → r ∉ rs)) ∧
    (∀ i, (∃ r ∈ db.rows, r.id = i) →
      (∀ (creds2 : Cred) (now : Nat) (body : SubmitBody),
        ∃ r ∈ (submitRoute db creds2 now body).1.rows, r.id = i) ∧
      (∀ (creds2 : Cred) (i2 : Nat) (sb : StatusBody) (now : Nat),
        ∃ r ∈ (statusRoute db creds2 i2 sb now).1.rows, r.id = i)) := by
  refine ⟨?_, ?_, ?_⟩
  · intro rs h
    simp only [listRoute, ha, if_true, reduceIte, Response.okRows.injEq] at h
    subst h
    intro r
    exact mem_sortBySubmittedAtDesc
  · intro q hq rs h
    simp only [listRoute, ha, if_true, if_neg hq, Response.okRows.injEq] at h
    subst h
    intro r
    constructor
    · rw [mem_sortBySubmittedAtDesc, List.mem_filter]
      simp
    · intro h1 h2
      rw [mem_sortBySubmittedAtDesc, List.mem_filter] at h2
      have := h2.2
      simp [h1] at this
  · rintro i ⟨r0, hr0, hid⟩
    refine ⟨?_, ?_⟩
    · intro creds2 now body
      exact ⟨r0, List.mem_append_left _ hr0, hid⟩
    · intro creds2 i2 sb now
      rcases statusRoute_rows db creds2 i2 sb now with h | h
      · exact ⟨r0, h ▸ hr0, hid⟩
      · rw [h]
        refine ⟨_, List.mem_map_of_mem
          (fun r => if r.id = i2 then applyStatus sb now r else r) hr0, ?_⟩
        by_cases hi : r0.id = i2
        · rw [if_pos hi, applyStatus_id]; exact hid
        · rw [if_neg hi]; exact hid

/-- Witness for C5: the completed row of the concrete database is absent
from the default (completed-hidden) listing. -/
theorem list_show_all_filtering_witness :
    exRowDone ∉ sortBySubmittedAtDesc
      (exDB2.rows.filter (fun r => r.isDone = SVal.int 0)) :=
  ((list_show_all_filtering exDB2 (some ("admin", "password"))
      (by decide)).2.1 none (by simp)
    (sortBySubmittedAtDesc
      (exDB2.rows.filter (fun r => r.isDone = SVal.int 0)))
    (by decide) exRowDone).2 rfl

/-- C6: when the stored rows have pairwise distinct `submittedAt` values,
an authenticated list request returns a sequence strictly sorted by
`submittedAt` descending, for either value of the `showAll` flag. -/
theorem list_sorted_desc
    (db : DB) (creds : Cred) (ha : authOk creds = true)
    (hd : (db.rows.map Row.submittedAt).Nodup) :
    ∀ q, ∃ rs, listRoute db creds q = .okRows rs ∧
      rs.Pairwise (fun a b => b.submittedAt < a.submittedAt) := by
  have key : ∀ l : List Row, (l.map Row.submittedAt).Nodup →
      (sortBySubmittedAtDesc l).Pairwise
        (fun a b => b.submittedAt < a.submittedAt) := by
    intro l hl
    have hge := sortBySubmittedAtDesc_pairwise l
    have hperm := (sortBySubmittedAtDesc_perm l).map Row.submittedAt
    have hnd : ((sortBySubmittedAtDesc l).map Row.submittedAt).Nodup :=
      hperm.nodup_iff.mpr hl
    have hne : (sortBySubmittedAtDesc l).Pairwise
        (fun a b => Row.submittedAt a ≠ Row.submittedAt b) :=
      List.pairwise_map.mp hnd
    exact (hge.and hne).imp
      (fun h => lt_of_le_of_ne h.1 (Ne.symm h.2))
  intro q
  by_cases hq : q = some "true"
  · refine ⟨sortBySubmittedAtDesc db.rows, ?_, key db.rows hd⟩
    simp [listRoute, ha, hq]
  · refine ⟨sortBySubmittedAtDesc
      (db.rows.filter (fun r => r.isDone = .int 0)), ?_, ?_⟩
    · simp [listRoute, ha, hq]
    · refine key _ ?_
      exact ((List.filter_sublist db.rows).map Row.submittedAt).nodup hd

/-- Witness for C6 at the concrete two-row database. -/
theorem list_sorted_desc_witness :
    ∃ rs, listRoute exDB (some ("admin", "password")) none = .okRows rs ∧
      rs.Pairwise (fun a b => b.submittedAt < a.submittedAt) :=
  list_sorted_desc exDB (some ("admin", "password")) (by decide)
    (by decide) none

theorem runCreates_ids (db : DB) (ops : List (Nat × SubmitBody)) :
    (runCreates db ops).2 = List.range' db.nextId ops.length := by
  induction ops generalizing db with
  | nil => rfl
  | cons p rest ih =>
    have h1 : (runCreates db (p :: rest)).2
        = db.nextId :: (runCreates (submitRoute db none p.1 p.2).1 rest).2 :=
      rfl
    rw [h1, ih]
    rfl

theorem runCreates_rows_ids (db : DB) (ops : List (Nat × SubmitBody)) :
    (runCreates db ops).1.rows.map Row.id
      = db.rows.map Row.id ++ List.range' db.nextId ops.length := by
  induction ops generalizing db with
  | nil => simp [runCreates]
  | cons p rest ih =>
    have h1 : (runCreates db (p :: rest)).1
        = (runCreates (submitRoute db none p.1 p.2).1 rest).1 := rfl
    rw [h1, ih]
    have h2 : (submitRoute db none p.1 p.2).1.rows
        = db.rows ++ [newRow db.nextId p.1 p.2] := rfl
    rw [h2, List.map_append, List.append_assoc]
    rfl

/-- C9: across any sequence of create requests, the ids returned to the
callers are strictly increasing, and each returned id identifies exactly
one row of the resulting table (assuming the AUTOINCREMENT invariant that
existing ids are below the counter and distinct, which holds of the empty
table). -/
theorem create_ids_strictly_increasing
    (db : DB) (ops : List (Nat × SubmitBody))
    (hlt : ∀ r ∈ db.rows, r.id < db.nextId)
    (hnd : (db.rows.map Row.id).Nodup) :
    (runCreates db ops).2.Pairwise (· < ·) ∧
    ∀ i ∈ (runCreates db ops).2,
      (runCreates db ops).1.rows.countP (fun r => r.id == i) = 1 := by
  constructor
  · rw [runCreates_ids]
    exact List.pairwise_lt_range' _ _
  · intro i hi
    rw [runCreates_ids] at hi
    have hmem : i ∈ (runCreates db ops).1.rows.map Row.id := by
      rw [runCreates_rows_ids]; exact List.mem_append_right _ hi
    have hndall : ((runCreates db ops).1.rows.map Row.id).Nodup := by
      rw [runCreates_rows_ids]
      refine List.nodup_append.mpr ⟨hnd, List.nodup_range' _ _, ?_⟩
      intro a ha hb
      obtain ⟨r, hr, rfl⟩ := List.mem_map.mp ha
      have h1 : r.id < db.nextId := hlt r hr
      have h2 : db.nextId ≤ r.id := (List.mem_range'_1.mp hb).1
      omega
    have hcount : ((runCreates db ops).1.rows.map Row.id).count i = 1 :=
      List.count_eq_one_of_mem hndall hmem
    have h3 := (List.countP_map (· == i) Row.id
      (runCreates db ops).1.rows).symm.trans hcount
    exact h3

/-- Witness for C9: two creates against the empty table return the ids
1 then 2, each identifying exactly one stored row. -/
theorem create_ids_strictly_increasing_witness :
    (runCreates DB.empty [(0, {}), (1, {})]).2.Pairwise (· < ·) ∧
    ∀ i ∈ (runCreates DB.empty [(0, {}), (1, {})]).2,
      (runCreates DB.empty [(0, {}), (1, {})]).1.rows.countP
        (fun r => r.id == i) = 1 :=
  create_ids_strictly_increasing DB.empty [(0, {}), (1, {})]
    (by simp [DB.empty]) (by simp [DB.empty])

/-- The status route can only answer with the fixed 200/400/404 messages
or the authentication challenge. -/
theorem statusRoute_resp (db : DB) (creds : Cred) (i : Nat)
    (sb : StatusBody) (now : Nat) :
    (statusRoute db creds i sb now).2 = .okMsg "Status updated successfully." ∨
    (statusRoute db creds i sb now).2
      = .badRequest400 "No status fields provided to update." ∨
    (statusRoute db creds i sb now).2 = .notFound404 "Submission not found." ∨
    (statusRoute db creds i sb now).2
      = .unauthorized401 true (unauthorizedResponse creds) := by
  unfold statusRoute
  split
  · split
    · exact Or.inr (Or.inl rfl)
    · dsimp only
      split
      · exact Or.inr (Or.inr (Or.inl rfl))
      · exact Or.inl rfl
  · exact Or.inr (Or.inr (Or.inr rfl))

/-- The list route answers either with rows or with the authentication
challenge. -/
theorem listRoute_resp (db : DB) (creds : Cred) (q : Option String) :
    (∃ rs, listRoute db creds q = .okRows rs) ∨
    listRoute db creds q
      = .unauthorized401 true (unauthorizedResponse creds) := by
  unfold listRoute
  split
  · exact Or.inl ⟨_, rfl⟩
  · exact Or.inr rfl

/-- C8 counterexample: two update-status requests differing only in the
supplied password receive different 401 error bodies for the same error
class, because the challenge body echoes the rejected username and
password verbatim. -/
theorem error_body_credential_leak :
    (statusRoute exDB (some ("admin", "hunter2")) 1 {} 0).2
      ≠ (statusRoute exDB (some ("admin", "letmein")) 1 {} 0).2 ∧
    (statusRoute exDB (some ("admin", "hunter2")) 1 {} 0).2
      = .unauthorized401 true "Credentials admin:hunter2 rejected" := by
  decide

/-- C8 (amended): the caller-facing 400 and 404 error bodies are fixed
short messages independent of the request, but the authentication
challenge is the exception: its body is derived from the supplied
credentials, echoing the rejected username and password verbatim. -/
theorem error_bodies_fixed
    (db : DB) (creds : Cred) (i : Nat) (sb : StatusBody)
    (q : Option String) (now : Nat) :
    (∀ e, (statusRoute db creds i sb now).2 = .badRequest400 e →
      e = "No status fields provided to update.") ∧
    (∀ e, (statusRoute db creds i sb now).2 = .notFound404 e →
      e = "Submission not found.") ∧
    (∀ f b, (statusRoute db creds i sb now).2 = .unauthorized401 f b →
      f = true ∧ b = unauthorizedResponse creds) ∧
    (∀ f b, listRoute db creds q = .unauthorized401 f b →
      f = true ∧ b = unauthorizedResponse creds) ∧
    (∀ u p, unauthorizedResponse (some (u, p))
      = "Credentials " ++ u ++ ":" ++ p ++ " rejected") := by
  refine ⟨?_, ?_, ?_, ?_, fun u p => rfl⟩
  · intro e h
    rcases statusRoute_resp db creds i sb now with hr | hr | hr | hr <;>
      rw [hr] at h
    · exact absurd h (by simp)
    · injection h with h1; exact h1.symm
    · exact absurd h (by simp)
    · exact absurd h (by simp)
  · intro e h
    rcases statusRoute_resp db creds i sb now with hr | hr | hr | hr <;>
      rw [hr] at h
    · exact absurd h (by simp)
    · exact absurd h (by simp)
    · injection h with h1; exact h1.symm
    · exact absurd h (by simp)
  · intro f b h
    rcases statusRoute_resp db creds i sb now with hr | hr | hr | hr <;>
      rw [hr] at h
    · exact absurd h (by simp)
    · exact absurd h (by simp)
    · exact absurd h (by simp)
    · injection h with h1 h2; exact ⟨h1.symm, h2.symm⟩
  · intro f b h
    rcases listRoute_resp db creds q with ⟨rs, hr⟩ | hr <;> rw [hr] at h
    · exact absurd h (by simp)
    · injection h with h1 h2; exact ⟨h1.symm, h2.symm⟩

/-- Witness for the amended C8: the 404 body is the fixed message, and the
challenge body for a supplied pair echoes it. -/
theorem error_bodies_fixed_witness :
    ("Submission not found." : String) = "Submission not found." ∧
    unauthorizedResponse (some ("admin", "pw"))
      = "Credentials admin:pw rejected" :=
  ⟨(error_bodies_fixed exDB (some ("admin", "password")) 99
      ⟨some (.bool true), none⟩ none 0).2.1
      "Submission not found." (by decide),
   (error_bodies_fixed exDB (some ("admin", "password")) 99
      ⟨some (.bool true), none⟩ none 0).2.2.2.2 "admin" "pw"⟩

end SafetyFixs
